import Mathlib

/-!
Verification of the hirzel Plugin dynamic-library wrapper
(src/include/hirzel/plugin.h).

The class is embedded shallowly: machine pointers become natural numbers
with 0 modelling the null pointer, the OS loader (dlopen, dlsym, dlerror
and their Windows counterparts) becomes an explicit oracle record, and the
unordered_map of bound functions becomes an association list with the
operator-bracket insert-default-on-miss semantics modelled exactly.
-/

namespace Hirzel

/-- Model of the OS dynamic loader backend. The handle returned by dlopen
and the address returned by dlsym are naturals, 0 standing for the null
pointer, so a 0 result models a failing open or lookup. The diagnostic
strings reported by dlerror or GetLastError for a failing open of a path
or a failing lookup of a symbol name are modelled by the two diagnostic
fields. -/
structure OS where
  dlopen : String → Nat
  dlsym : Nat → String → Nat
  openDiag : String → String
  symDiag : String → String

/-- Association-list lookup, modelling unordered_map find. -/
def mapFind : List (String × Nat) → String → Option Nat
  | [], _ => none
  | (k, v) :: rest, s => if k = s then some v else mapFind rest s

/-- Association-list insert-or-overwrite, modelling assignment through
unordered_map operator bracket. -/
def mapInsert : List (String × Nat) → String → Nat → List (String × Nat)
  | [], s, v => [(s, v)]
  | (k, w) :: rest, s, v =>
      if k = s then (s, v) :: rest else (k, w) :: mapInsert rest s v

/-- Read through unordered_map operator bracket: when the key is absent a
value-initialized entry (the null pointer, 0) is inserted first, then the
stored value is returned together with the updated map. -/
def mapIndex (m : List (String × Nat)) (s : String) : List (String × Nat) × Nat :=
  match mapFind m s with
  | some v => (m, v)
  | none => (mapInsert m s 0, 0)

/-- State of a hirzel Plugin object. Field lib models the member that
stores the library handle (0 is the null pointer), bound models the flag
that is true when the library and all functions bound, error models the
error string member (none is the null char pointer), filepath the stored
path and functions the map from symbol name to function pointer. -/
structure Plugin where
  lib : Nat
  bound : Bool
  error : Option String
  filepath : String
  functions : List (String × Nat)
deriving DecidableEq, Repr

/-- The default-constructed Plugin: null handle, not bound, no error,
empty path, empty function map. -/
def Plugin.init : Plugin :=
  { lib := 0, bound := false, error := none, filepath := "", functions := [] }

/-- Embedding of Plugin bind_library. If a library is already held it only
records the already-bound diagnostic and returns. Otherwise it stores the
path, asks the OS loader to open it, and on failure records the OS
diagnostic and clears bound, on success sets bound. -/
def bind_library (os : OS) (p : Plugin) (path : String) : Plugin :=
  if p.lib ≠ 0 then
    { p with error := some "a library is already bound! overwriting is not allowed." }
  else
    let p1 := { p with filepath := path }
    let h := os.dlopen p1.filepath
    if h = 0 then
      { p1 with lib := h, error := some (os.openDiag p1.filepath), bound := false }
    else
      { p1 with lib := h, bound := true }

/-- Embedding of Plugin bind_function. With no library held it records the
unbound-library diagnostic and returns the null pointer. Otherwise it asks
the OS loader for the symbol; on failure it records the OS diagnostic,
clears bound and returns null; on success it stores the address in the map
and returns it. -/
def bind_function (os : OS) (p : Plugin) (funcname : String) : Plugin × Nat :=
  if p.lib = 0 then
    ({ p with error := some "lib has not been bound! cannot continue with binding function!" }, 0)
  else
    let f := os.dlsym p.lib funcname
    if f = 0 then
      ({ p with error := some (os.symDiag funcname), bound := false }, 0)
    else
      ({ p with functions := mapInsert p.functions funcname f }, f)

/-- Observable outcome of the execute template: either the guard fired and
the default value of the return type was produced without any call, or the
call went through the stored address. -/
inductive ExecResult where
  | defaulted : ExecResult
  | called : Nat → ExecResult
deriving DecidableEq, Repr

/-- Embedding of Plugin execute. It reads the map through operator
bracket, which inserts a null entry on a miss, then guards: a null pointer
records the not-bound diagnostic and yields the default value, a non-null
pointer is called. -/
def execute (p : Plugin) (funcname : String) : Plugin × ExecResult :=
  let mf := mapIndex p.functions funcname
  let p1 := { p with functions := mf.1 }
  if mf.2 = 0 then
    ({ p1 with error := some "attempted to execute function that is not bound!" },
      ExecResult.defaulted)
  else
    (p1, ExecResult.called mf.2)

/-- Embedding of Plugin get_func: an operator-bracket read of the map,
inserting a null entry on a miss. -/
def get_func (p : Plugin) (funcname : String) : Plugin × Nat :=
  let mf := mapIndex p.functions funcname
  ({ p with functions := mf.1 }, mf.2)

/-- Embedding of Plugin is_lib_bound: the handle converted to bool. -/
def is_lib_bound (p : Plugin) : Bool := p.lib != 0

/-- Embedding of Plugin is_func_bound: membership of the name in the map. -/
def is_func_bound (p : Plugin) (funcname : String) : Bool :=
  (mapFind p.functions funcname).isSome

/-- Folding bind_function over a list of names, as the loop in the
constructor does. -/
def bindAll (os : OS) (p : Plugin) (names : List String) : Plugin :=
  names.foldl (fun q s => (bind_function os q s).1) p

/-- Embedding of the Plugin constructor taking a path and a batch of
symbol names: it binds the library and, when a handle was obtained, binds
every name of the batch in order. -/
def pluginCtor (os : OS) (path : String) (funcnames : List String) : Plugin :=
  let p := bind_library os Plugin.init path
  if p.lib ≠ 0 then bindAll os p funcnames else p

/-- The mutating operations a caller can perform on a Plugin after
construction. -/
inductive Op where
  | bindLib : String → Op
  | bindFn : String → Op
  | exec : String → Op
  | getFn : String → Op
deriving DecidableEq, Repr

/-- One operation applied to a Plugin state. -/
def stepOp (os : OS) (p : Plugin) : Op → Plugin
  | Op.bindLib s => bind_library os p s
  | Op.bindFn s => (bind_function os p s).1
  | Op.exec s => (execute p s).1
  | Op.getFn s => (get_func p s).1

/-- A sequence of operations applied in order. -/
def runOps (os : OS) (p : Plugin) (ops : List Op) : Plugin :=
  ops.foldl (stepOp os) p

/-- Whether one operation is a successful resolution of the given name
from the given state: a bind_function of that name while a library is held
and the OS lookup succeeds. -/
def resolveStep (os : OS) (p : Plugin) (name : String) : Op → Bool
  | Op.bindFn s => s == name && p.lib != 0 && os.dlsym p.lib s != 0
  | _ => false

/-- Whether a trace of operations run from the given state ever
successfully resolves the given name. -/
def traceResolves (os : OS) : Plugin → String → List Op → Bool
  | _, _, [] => false
  | p, name, op :: rest =>
      resolveStep os p name op || traceResolves os (stepOp os p op) name rest

/-- The last name of the batch whose OS lookup against handle h fails, if
any. -/
def lastFail (os : OS) (h : Nat) : List String → Option String
  | [] => none
  | n :: rest =>
      match lastFail os h rest with
      | some m => some m
      | none => if os.dlsym h n = 0 then some n else none

/-! Basic lemmas about the map model and field preservation. -/

theorem mapFind_insert_self (m : List (String × Nat)) (s : String) (v : Nat) :
    mapFind (mapInsert m s v) s = some v := by
  induction m with
  | nil => simp [mapInsert, mapFind]
  | cons kv rest ih =>
      obtain ⟨k, w⟩ := kv
      by_cases h : k = s
      · simp [mapInsert, mapFind, h]
      · simp [mapInsert, mapFind, h, ih]

theorem mapFind_insert_ne (m : List (String × Nat)) (s k : String) (v : Nat)
    (h : k ≠ s) : mapFind (mapInsert m s v) k = mapFind m k := by
  induction m with
  | nil => simp [mapInsert, mapFind, Ne.symm h]
  | cons kv rest ih =>
      obtain ⟨k2, w⟩ := kv
      by_cases h2 : k2 = s
      · subst h2
        simp [mapInsert, mapFind, Ne.symm h]
      · by_cases h3 : k2 = k
        · subst h3
          simp [mapInsert, mapFind, h2, h]
        · simp [mapInsert, mapFind, h2, h3, ih]

theorem bind_function_lib (os : OS) (p : Plugin) (s : String) :
    ((bind_function os p s).1).lib = p.lib := by
  unfold bind_function
  by_cases h : p.lib = 0
  · simp [h]
  · by_cases h2 : os.dlsym p.lib s = 0 <;> simp [h, h2]

theorem bind_function_filepath (os : OS) (p : Plugin) (s : String) :
    ((bind_function os p s).1).filepath = p.filepath := by
  unfold bind_function
  by_cases h : p.lib = 0
  · simp [h]
  · by_cases h2 : os.dlsym p.lib s = 0 <;> simp [h, h2]

theorem execute_lib (p : Plugin) (s : String) : ((execute p s).1).lib = p.lib := by
  unfold execute
  by_cases h : (mapIndex p.functions s).2 = 0 <;> simp [h]

theorem execute_bound (p : Plugin) (s : String) :
    ((execute p s).1).bound = p.bound := by
  unfold execute
  by_cases h : (mapIndex p.functions s).2 = 0 <;> simp [h]

theorem get_func_lib (p : Plugin) (s : String) : ((get_func p s).1).lib = p.lib := rfl

theorem get_func_bound (p : Plugin) (s : String) :
    ((get_func p s).1).bound = p.bound := rfl

theorem bind_library_functions (os : OS) (p : Plugin) (s : String) :
    (bind_library os p s).functions = p.functions := by
  unfold bind_library
  by_cases h : p.lib ≠ 0
  · simp [h]
  · by_cases h2 : os.dlopen s = 0 <;> simp [h, h2]

/-- Claim C3 helper: when a library is already held, bind_library only
writes the already-bound diagnostic. -/
theorem bind_library_already (os : OS) (p : Plugin) (path : String)
    (h : p.lib ≠ 0) :
    bind_library os p path =
      { p with error := some "a library is already bound! overwriting is not allowed." } := by
  unfold bind_library
  simp [h]

/-- C3: a second load on a handle that already holds an open OS library
fails with the already-loaded diagnostic and leaves the OS handle, the
recorded filepath, the symbols map and the bound flag exactly as they
were. -/
theorem second_load_rejected_state_unchanged (os : OS) (p : Plugin) (path : String)
    (h : p.lib ≠ 0) :
    (bind_library os p path).lib = p.lib ∧
    (bind_library os p path).filepath = p.filepath ∧
    (bind_library os p path).functions = p.functions ∧
    (bind_library os p path).bound = p.bound ∧
    (bind_library os p path).error =
      some "a library is already bound! overwriting is not allowed." := by
  rw [bind_library_already os p path h]
  exact ⟨rfl, rfl, rfl, rfl, rfl⟩

/-- Witness for C3 at a concrete loaded state. -/
theorem second_load_rejected_state_unchanged_witness :
    (1 : Nat) ≠ 0 ∧
    (bind_library ⟨fun _ => 1, fun _ _ => 1, fun _ => "e", fun _ => "e"⟩
        { lib := 1, bound := true, error := none, filepath := "a.so", functions := [] }
        "b.so").filepath = "a.so" := by
  refine ⟨by decide, ?_⟩
  exact (second_load_rejected_state_unchanged
    ⟨fun _ => 1, fun _ _ => 1, fun _ => "e", fun _ => "e"⟩
    { lib := 1, bound := true, error := none, filepath := "a.so", functions := [] }
    "b.so" (by decide)).2.1

/-- C4: on a loaded handle, resolving a name the image does not export
fails (returns the null pointer), clears the bound flag, records the OS
diagnostic, and leaves the symbols map unchanged, so the failing name is
not added and every previously resolved name is still bound. -/
theorem resolve_missing_symbol (os : OS) (p : Plugin) (name : String)
    (hlib : p.lib ≠ 0) (hsym : os.dlsym p.lib name = 0) :
    (bind_function os p name).2 = 0 ∧
    ((bind_function os p name).1).bound = false ∧
    ((bind_function os p name).1).functions = p.functions ∧
    (∀ m, is_func_bound ((bind_function os p name).1) m = is_func_bound p m) ∧
    ((bind_function os p name).1).error = some (os.symDiag name) := by
  unfold bind_function
  simp [hlib, hsym, is_func_bound]

/-- Witness for C4: a loaded handle with one cached symbol, resolving a
missing name. -/
theorem resolve_missing_symbol_witness :
    (1 : Nat) ≠ 0 ∧
    is_func_bound
      ((bind_function ⟨fun _ => 1, fun _ _ => 0, fun _ => "e", fun n => n⟩
          { lib := 1, bound := true, error := none, filepath := "a.so",
            functions := [("add", 5)] } "missing").1) "add" = true := by
  refine ⟨by decide, ?_⟩
  have h := resolve_missing_symbol
    ⟨fun _ => 1, fun _ _ => 0, fun _ => "e", fun n => n⟩
    { lib := 1, bound := true, error := none, filepath := "a.so",
      functions := [("add", 5)] } "missing" (by decide) rfl
  rw [h.2.2.2.1 "add"]
  decide

/-- C7: on a loaded handle, resolving an exported name succeeds with the
OS-reported address, makes is_func_bound true, and a second resolve of the
same name is idempotent: it returns the same address, writes no error, and
leaves the cached entry equal to that address. -/
theorem resolve_idempotent (os : OS) (p : Plugin) (name : String)
    (hlib : p.lib ≠ 0) (hsym : os.dlsym p.lib name ≠ 0) :
    (bind_function os p name).2 = os.dlsym p.lib name ∧
    is_func_bound ((bind_function os p name).1) name = true ∧
    (bind_function os ((bind_function os p name).1) name).2 =
      (bind_function os p name).2 ∧
    ((bind_function os ((bind_function os p name).1) name).1).error =
      ((bind_function os p name).1).error ∧
    mapFind ((bind_function os ((bind_function os p name).1) name).1).functions name =
      some (bind_function os p name).2 := by
  have hq : (bind_function os p name).1 =
      { p with functions := mapInsert p.functions name (os.dlsym p.lib name) } := by
    unfold bind_function
    simp [hlib, hsym]
  have hr : (bind_function os p name).2 = os.dlsym p.lib name := by
    unfold bind_function
    simp [hlib, hsym]
  refine ⟨hr, ?_, ?_, ?_, ?_⟩
  · rw [hq]
    simp [is_func_bound, mapFind_insert_self]
  · rw [hq]
    unfold bind_function
    simp [hlib, hsym, hr]
  · rw [hq]
    unfold bind_function
    simp [hlib, hsym]
  · rw [hq]
    unfold bind_function
    simp [hlib, hsym, hr, mapFind_insert_self]

/-- Witness for C7 on a loaded handle and an exported symbol. -/
theorem resolve_idempotent_witness :
    (1 : Nat) ≠ 0 ∧ (7 : Nat) ≠ 0 ∧
    (bind_function ⟨fun _ => 1, fun _ _ => 7, fun _ => "e", fun n => n⟩
        { lib := 1, bound := true, error := none, filepath := "a.so",
          functions := [] } "add").2 = 7 := by
  refine ⟨by decide, by decide, ?_⟩
  exact (resolve_idempotent
    ⟨fun _ => 1, fun _ _ => 7, fun _ => "e", fun n => n⟩
    { lib := 1, bound := true, error := none, filepath := "a.so", functions := [] }
    "add" (by decide) (by decide)).1

/-- C8: reading an absent name through execute or get_func inserts the
name with a null address, so is_func_bound becomes true although the name
was never successfully resolved. -/
theorem absent_name_inserted_null (p : Plugin) (name : String)
    (habs : mapFind p.functions name = none) :
    is_func_bound ((execute p name).1) name = true ∧
    mapFind ((execute p name).1).functions name = some 0 ∧
    is_func_bound ((get_func p name).1) name = true ∧
    mapFind ((get_func p name).1).functions name = some 0 := by
  have hidx : mapIndex p.functions name = (mapInsert p.functions name 0, 0) := by
    unfold mapIndex
    rw [habs]
  refine ⟨?_, ?_, ?_, ?_⟩ <;>
    simp [execute, get_func, hidx, is_func_bound, mapFind_insert_self]

/-- Witness for C8 on an empty map. -/
theorem absent_name_inserted_null_witness :
    mapFind Plugin.init.functions "f" = none ∧
    is_func_bound ((execute Plugin.init "f").1) "f" = true := by
  refine ⟨rfl, ?_⟩
  exact (absent_name_inserted_null Plugin.init "f" rfl).1

/-- C10: on a handle with no library held, bind_library stores the
attempted path into filepath before consulting the OS loader, so filepath
reports that path afterward even when the load fails and is_lib_bound
stays false. -/
theorem load_records_filepath (os : OS) (p : Plugin) (path : String)
    (h : p.lib = 0) :
    (bind_library os p path).filepath = path ∧
    (os.dlopen path = 0 → is_lib_bound (bind_library os p path) = false) := by
  unfold bind_library
  by_cases h2 : os.dlopen path = 0 <;> simp [h, h2, is_lib_bound]

/-- Witness for C10 with a loader that rejects every path. -/
theorem load_records_filepath_witness :
    Plugin.init.lib = 0 ∧
    (bind_library ⟨fun _ => 0, fun _ _ => 0, fun _ => "no such file", fun n => n⟩
        Plugin.init "bad.so").filepath = "bad.so" := by
  refine ⟨rfl, ?_⟩
  exact (load_records_filepath
    ⟨fun _ => 0, fun _ _ => 0, fun _ => "no such file", fun n => n⟩
    Plugin.init "bad.so" rfl).1

/-! Concrete loaders used by witnesses and counterexamples. -/

/-- A concrete loader: it maps only the path good.so, to the handle 3, and
exports no symbols. -/
def osDemo : OS :=
  ⟨fun s => if s = "good.so" then 3 else 0, fun _ _ => 0,
    fun _ => "load error", fun n => String.append "undefined symbol " n⟩

/-- A concrete loader for batch scenarios: every path maps to handle 1,
and only the symbol b resolves, to address 7. -/
def osBatch : OS :=
  ⟨fun _ => 1, fun _ n => if n = "b" then 7 else 0,
    fun _ => "load error", fun n => String.append "undefined symbol " n⟩

/-! Claim C1: invoking a never-resolved name is safe. -/

/-- The cached entry for a name is absent or the null pointer. This is the
state of every name that was never successfully resolved. -/
def zeroEntry (p : Plugin) (name : String) : Prop :=
  ∀ a, mapFind p.functions name = some a → a = 0

theorem bind_function_functions (os : OS) (p : Plugin) (s : String) :
    ((bind_function os p s).1).functions =
      if p.lib = 0 then p.functions
      else if os.dlsym p.lib s = 0 then p.functions
      else mapInsert p.functions s (os.dlsym p.lib s) := by
  unfold bind_function
  by_cases h : p.lib = 0
  · simp [h]
  · by_cases h2 : os.dlsym p.lib s = 0 <;> simp [h, h2]

theorem execute_functions (p : Plugin) (s : String) :
    ((execute p s).1).functions = (mapIndex p.functions s).1 := by
  unfold execute
  by_cases h : (mapIndex p.functions s).2 = 0 <;> simp [h]

theorem get_func_functions (p : Plugin) (s : String) :
    ((get_func p s).1).functions = (mapIndex p.functions s).1 := rfl

theorem zeroEntry_mapIndex (m : List (String × Nat)) (s name : String)
    (h : ∀ a, mapFind m name = some a → a = 0) :
    ∀ a, mapFind (mapIndex m s).1 name = some a → a = 0 := by
  unfold mapIndex
  cases hf : mapFind m s with
  | some v => simpa using h
  | none =>
      by_cases hs : s = name
      · subst hs
        intro a ha
        simp only [mapFind_insert_self] at ha
        exact (Option.some.inj ha).symm
      · intro a ha
        simp only [mapFind_insert_ne m s name 0 (Ne.symm hs)] at ha
        exact h a ha

theorem zeroEntry_step (os : OS) (p : Plugin) (name : String) (op : Op)
    (hz : zeroEntry p name) (hr : resolveStep os p name op = false) :
    zeroEntry (stepOp os p op) name := by
  cases op with
  | bindLib s =>
      intro a ha
      simp only [stepOp, bind_library_functions] at ha
      exact hz a ha
  | bindFn s =>
      intro a ha
      simp only [stepOp, bind_function_functions] at ha
      by_cases h0 : p.lib = 0
      · rw [if_pos h0] at ha
        exact hz a ha
      · by_cases h1 : os.dlsym p.lib s = 0
        · rw [if_neg h0, if_pos h1] at ha
          exact hz a ha
        · have hs : s ≠ name := by
            intro he
            subst he
            simp [resolveStep, h0, h1] at hr
          rw [if_neg h0, if_neg h1,
            mapFind_insert_ne p.functions s name (os.dlsym p.lib s) (Ne.symm hs)] at ha
          exact hz a ha
  | exec s =>
      intro a ha
      simp only [stepOp, execute_functions] at ha
      exact zeroEntry_mapIndex p.functions s name hz a ha
  | getFn s =>
      intro a ha
      simp only [stepOp, get_func_functions] at ha
      exact zeroEntry_mapIndex p.functions s name hz a ha

theorem zeroEntry_run (os : OS) (name : String) (ops : List Op) :
    ∀ p, zeroEntry p name → traceResolves os p name ops = false →
      zeroEntry (runOps os p ops) name := by
  induction ops with
  | nil =>
      intro p hz _
      exact hz
  | cons op rest ih =>
      intro p hz htr
      rw [traceResolves] at htr
      cases h1 : resolveStep os p name op with
      | true =>
          rw [h1] at htr
          simp at htr
      | false =>
          rw [h1] at htr
          simp only [Bool.false_or] at htr
          exact ih (stepOp os p op) (zeroEntry_step os p name op hz h1) htr

theorem execute_of_zeroEntry (p : Plugin) (name : String) (hz : zeroEntry p name) :
    (execute p name).2 = ExecResult.defaulted ∧
    ((execute p name).1).error =
      some "attempted to execute function that is not bound!" := by
  have hval : (mapIndex p.functions name).2 = 0 := by
    unfold mapIndex
    cases hf : mapFind p.functions name with
    | none => simp
    | some v =>
        simp only
        exact hz v hf
  refine ⟨?_, ?_⟩ <;> (unfold execute; simp [hval])

/-- C1: for a name never successfully resolved along any trace from the
fresh state, execute records the not-bound diagnostic and yields the
default value of the signature without calling through any address, so it
never dereferences a null pointer. -/
theorem invoke_never_resolved_safe (os : OS) (ops : List Op) (name : String)
    (h : traceResolves os Plugin.init name ops = false) :
    (execute (runOps os Plugin.init ops) name).2 = ExecResult.defaulted ∧
    ((execute (runOps os Plugin.init ops) name).1).error =
      some "attempted to execute function that is not bound!" := by
  have hz0 : zeroEntry Plugin.init name := by
    intro a ha
    simp [Plugin.init, mapFind] at ha
  exact execute_of_zeroEntry _ name (zeroEntry_run os name ops Plugin.init hz0 h)

/-- Witness for C1: a trace that loads a library and fails to resolve the
name, then invokes it. -/
theorem invoke_never_resolved_safe_witness :
    traceResolves osDemo Plugin.init "f" [Op.bindLib "good.so", Op.bindFn "f"] = false ∧
    (execute (runOps osDemo Plugin.init [Op.bindLib "good.so", Op.bindFn "f"]) "f").2 =
      ExecResult.defaulted := by
  refine ⟨by decide, ?_⟩
  exact (invoke_never_resolved_safe osDemo [Op.bindLib "good.so", Op.bindFn "f"] "f"
    (by decide)).1

/-! Claim C9: a false bound flag on a loaded handle is permanent. -/

theorem step_keeps_unbound (os : OS) (p : Plugin) (op : Op)
    (hlib : p.lib ≠ 0) (hb : p.bound = false) :
    (stepOp os p op).lib ≠ 0 ∧ (stepOp os p op).bound = false := by
  cases op with
  | bindLib s =>
      simp only [stepOp]
      rw [bind_library_already os p s hlib]
      exact ⟨hlib, hb⟩
  | bindFn s =>
      refine ⟨?_, ?_⟩
      · simp only [stepOp]
        rw [bind_function_lib]
        exact hlib
      · simp only [stepOp]
        unfold bind_function
        by_cases h1 : os.dlsym p.lib s = 0 <;> simp [hlib, h1, hb]
  | exec s =>
      refine ⟨?_, ?_⟩
      · simp only [stepOp]
        rw [execute_lib]
        exact hlib
      · simp only [stepOp]
        rw [execute_bound]
        exact hb
  | getFn s =>
      exact ⟨hlib, hb⟩

theorem runOps_keeps_unbound (os : OS) (ops : List Op) :
    ∀ p, p.lib ≠ 0 → p.bound = false →
      (runOps os p ops).lib ≠ 0 ∧ (runOps os p ops).bound = false := by
  induction ops with
  | nil =>
      intro p h1 h2
      exact ⟨h1, h2⟩
  | cons op rest ih =>
      intro p h1 h2
      have hs := step_keeps_unbound os p op h1 h2
      exact ih (stepOp os p op) hs.1 hs.2

/-- C9: after a failed symbol resolution on a loaded handle the bound flag
is false, and no later sequence of operations makes it true again: bound
is assigned true only inside a successful load, which a handle that holds
a library can never perform again. -/
theorem bound_false_forever (os : OS) (p : Plugin) (name : String) (ops : List Op)
    (hlib : p.lib ≠ 0) (hsym : os.dlsym p.lib name = 0) :
    ((bind_function os p name).1).bound = false ∧
    (runOps os ((bind_function os p name).1) ops).bound = false := by
  have hb : ((bind_function os p name).1).bound = false := by
    unfold bind_function
    simp [hlib, hsym]
  have hl : ((bind_function os p name).1).lib ≠ 0 := by
    rw [bind_function_lib]
    exact hlib
  exact ⟨hb, (runOps_keeps_unbound os ops _ hl hb).2⟩

/-- Witness for C9: a loaded handle, a failing resolution, then four more
operations of every kind. -/
theorem bound_false_forever_witness :
    (bind_library osDemo Plugin.init "good.so").lib ≠ 0 ∧
    (runOps osDemo ((bind_function osDemo (bind_library osDemo Plugin.init "good.so") "f").1)
        [Op.bindLib "x.so", Op.exec "g", Op.getFn "h", Op.bindFn "k"]).bound = false := by
  refine ⟨by decide, ?_⟩
  exact (bound_false_forever osDemo (bind_library osDemo Plugin.init "good.so") "f"
    [Op.bindLib "x.so", Op.exec "g", Op.getFn "h", Op.bindFn "k"]
    (by decide) (by decide)).2

/-! Claim C2: the constructor batch is not fail-fast. -/

theorem bind_function_error (os : OS) (p : Plugin) (s : String) (h : p.lib ≠ 0) :
    ((bind_function os p s).1).error =
      if os.dlsym p.lib s = 0 then some (os.symDiag s) else p.error := by
  unfold bind_function
  by_cases h2 : os.dlsym p.lib s = 0 <;> simp [h, h2]

theorem bindAll_lib (os : OS) (names : List String) :
    ∀ p, (bindAll os p names).lib = p.lib := by
  induction names with
  | nil =>
      intro p
      rfl
  | cons s rest ih =>
      intro p
      have : bindAll os p (s :: rest) = bindAll os ((bind_function os p s).1) rest := rfl
      rw [this, ih, bind_function_lib]

theorem bindAll_bound_false (os : OS) (names : List String) :
    ∀ p, p.lib ≠ 0 → p.bound = false → (bindAll os p names).bound = false := by
  induction names with
  | nil =>
      intro p _ hb
      exact hb
  | cons s rest ih =>
      intro p hl hb
      have hstep : ((bind_function os p s).1).bound = false := by
        unfold bind_function
        by_cases h1 : os.dlsym p.lib s = 0 <;> simp [hl, h1, hb]
      have hstepl : ((bind_function os p s).1).lib ≠ 0 := by
        rw [bind_function_lib]
        exact hl
      exact ih ((bind_function os p s).1) hstepl hstep

theorem bindAll_fail_bound (os : OS) (names : List String) :
    ∀ p n, p.lib ≠ 0 → n ∈ names → os.dlsym p.lib n = 0 →
      (bindAll os p names).bound = false := by
  induction names with
  | nil =>
      intro p n _ hmem _
      exact absurd hmem (List.not_mem_nil n)
  | cons s rest ih =>
      intro p n hl hmem hsym
      have hstepl : ((bind_function os p s).1).lib ≠ 0 := by
        rw [bind_function_lib]
        exact hl
      by_cases hr : n ∈ rest
      · refine ih ((bind_function os p s).1) n hstepl hr ?_
        rw [bind_function_lib]
        exact hsym
      · have hn : n = s := by
          cases List.mem_cons.mp hmem with
          | inl h => exact h
          | inr h => exact absurd h hr
      -- the failing name is the head, so the step itself clears bound
        subst hn
        have hstep : ((bind_function os p n).1).bound = false := by
          unfold bind_function
          simp [hl, hsym]
        exact bindAll_bound_false os rest ((bind_function os p n).1) hstepl hstep

theorem bindAll_error (os : OS) (names : List String) :
    ∀ p, p.lib ≠ 0 →
      (bindAll os p names).error =
        (match lastFail os p.lib names with
         | none => p.error
         | some m => some (os.symDiag m)) := by
  induction names with
  | nil =>
      intro p _
      rfl
  | cons s rest ih =>
      intro p hl
      have hstepl : ((bind_function os p s).1).lib = p.lib := bind_function_lib os p s
      have hrw : bindAll os p (s :: rest) = bindAll os ((bind_function os p s).1) rest := rfl
      rw [hrw]
      have hih := ih ((bind_function os p s).1) (by rw [hstepl]; exact hl)
      rw [hstepl] at hih
      rw [hih]
      cases hLF : lastFail os p.lib rest with
      | some m => simp [lastFail, hLF]
      | none =>
          simp only [lastFail, hLF]
          rw [bind_function_error os p s hl]
          by_cases h1 : os.dlsym p.lib s = 0 <;> simp [h1]

theorem bindAll_entry_preserve (os : OS) (names : List String) :
    ∀ p n, p.lib ≠ 0 → mapFind p.functions n = some (os.dlsym p.lib n) →
      mapFind (bindAll os p names).functions n = some (os.dlsym p.lib n) := by
  induction names with
  | nil =>
      intro p n _ h
      exact h
  | cons s rest ih =>
      intro p n hl h
      have hstepl : ((bind_function os p s).1).lib = p.lib := bind_function_lib os p s
      have hrw : bindAll os p (s :: rest) = bindAll os ((bind_function os p s).1) rest := rfl
      rw [hrw]
      have hstepf : mapFind ((bind_function os p s).1).functions n =
          some (os.dlsym p.lib n) := by
        rw [bind_function_functions]
        by_cases h0 : p.lib = 0
        · exact absurd h0 hl
        · by_cases h1 : os.dlsym p.lib s = 0
          · rw [if_neg h0, if_pos h1]
            exact h
          · rw [if_neg h0, if_neg h1]
            by_cases hs : s = n
            · subst hs
              rw [mapFind_insert_self]
            · rw [mapFind_insert_ne p.functions s n _ (Ne.symm hs)]
              exact h
      have := ih ((bind_function os p s).1) n (by rw [hstepl]; exact hl)
        (by rw [hstepl]; exact hstepf)
      rw [hstepl] at this
      exact this

theorem bindAll_entry (os : OS) (names : List String) :
    ∀ p n, p.lib ≠ 0 → n ∈ names → os.dlsym p.lib n ≠ 0 →
      mapFind (bindAll os p names).functions n = some (os.dlsym p.lib n) := by
  induction names with
  | nil =>
      intro p n _ hmem _
      exact absurd hmem (List.not_mem_nil n)
  | cons s rest ih =>
      intro p n hl hmem hsym
      have hstepl : ((bind_function os p s).1).lib = p.lib := bind_function_lib os p s
      have hrw : bindAll os p (s :: rest) = bindAll os ((bind_function os p s).1) rest := rfl
      rw [hrw]
      by_cases hr : n ∈ rest
      · have := ih ((bind_function os p s).1) n (by rw [hstepl]; exact hl)
          (hr) (by rw [hstepl]; exact hsym)
        rw [hstepl] at this
        exact this
      · have hn : n = s := by
          cases List.mem_cons.mp hmem with
          | inl h => exact h
          | inr h => exact absurd h hr
        subst hn
        have hstepf : mapFind ((bind_function os p n).1).functions n =
            some (os.dlsym p.lib n) := by
          rw [bind_function_functions]
          rw [if_neg (by simpa using hl), if_neg hsym, mapFind_insert_self]
        have := bindAll_entry_preserve os rest ((bind_function os p n).1) n
          (by rw [hstepl]; exact hl) (by rw [hstepl]; exact hstepf)
        rw [hstepl] at this
        exact this

/-- Shape of the state right after a successful load of a fresh handle. -/
theorem bind_library_init (os : OS) (path : String) (h : os.dlopen path ≠ 0) :
    bind_library os Plugin.init path =
      { lib := os.dlopen path, bound := true, error := none,
        filepath := path, functions := [] } := by
  unfold bind_library Plugin.init
  simp [h]

/-- Counterexample to C2 as stated: with a loader whose image exports only
b at address 7, constructing from the batch a, b, c still attempts and
caches b after the failure of a, and the recorded diagnostic is the one of
c, the last failure, not the one of a, the first. -/
theorem batch_not_fail_fast_counterexample :
    osBatch.dlsym (osBatch.dlopen "lib.so") "a" = 0 ∧
    is_func_bound (pluginCtor osBatch "lib.so" ["a", "b", "c"]) "b" = true ∧
    (pluginCtor osBatch "lib.so" ["a", "b", "c"]).error =
      some "undefined symbol c" ∧
    some "undefined symbol c" ≠ some (osBatch.symDiag "a") := by
  refine ⟨rfl, ?_, ?_, by decide⟩ <;> rfl

/-- C2 amended: the constructor batch is not fail-fast. Every name of the
batch is attempted even after a failure, so every name the image exports
ends up cached at its OS-reported address; any failure in the batch leaves
bound false; and last_error afterward holds the diagnostic of the last
failure of the batch, not the first. -/
theorem batch_attempts_all_names (os : OS) (path : String) (names : List String)
    (hload : os.dlopen path ≠ 0) :
    (∀ n, n ∈ names → os.dlsym (os.dlopen path) n ≠ 0 →
      mapFind (pluginCtor os path names).functions n =
        some (os.dlsym (os.dlopen path) n)) ∧
    (∀ n, n ∈ names → os.dlsym (os.dlopen path) n = 0 →
      (pluginCtor os path names).bound = false) ∧
    (pluginCtor os path names).error =
      Option.map os.symDiag (lastFail os (os.dlopen path) names) := by
  have hp := bind_library_init os path hload
  have hlib : (bind_library os Plugin.init path).lib = os.dlopen path := by rw [hp]
  have herr : (bind_library os Plugin.init path).error = none := by rw [hp]
  have hctor : pluginCtor os path names =
      bindAll os (bind_library os Plugin.init path) names := by
    simp only [pluginCtor]
    rw [hlib]
    simp [hload]
  refine ⟨?_, ?_, ?_⟩
  · intro n hmem hsym
    rw [hctor]
    have h := bindAll_entry os names (bind_library os Plugin.init path) n
      (by rw [hlib]; exact hload) hmem (by rw [hlib]; exact hsym)
    rw [hlib] at h
    exact h
  · intro n hmem hsym
    rw [hctor]
    exact bindAll_fail_bound os names (bind_library os Plugin.init path) n
      (by rw [hlib]; exact hload) hmem (by rw [hlib]; exact hsym)
  · rw [hctor]
    have h := bindAll_error os names (bind_library os Plugin.init path)
      (by rw [hlib]; exact hload)
    rw [hlib, herr] at h
    rw [h]
    cases hLF : lastFail os (os.dlopen path) names <;> simp

/-- Witness for the amended C2 on the counterexample loader: b, resolved
after the failure of a, is cached at address 7, bound is false, and the
error corresponds to the last failure of the batch via lastFail. -/
theorem batch_attempts_all_names_witness :
    osBatch.dlopen "lib.so" ≠ 0 ∧
    mapFind (pluginCtor osBatch "lib.so" ["a", "b", "c"]).functions "b" = some 7 ∧
    (pluginCtor osBatch "lib.so" ["a", "b", "c"]).bound = false := by
  refine ⟨by decide, ?_, ?_⟩
  · have h := (batch_attempts_all_names osBatch "lib.so" ["a", "b", "c"]
      (by decide)).1 "b" (by decide) (by decide)
    rw [h]
    rfl
  · exact (batch_attempts_all_names osBatch "lib.so" ["a", "b", "c"]
      (by decide)).2.1 "a" (by decide) (by decide)

/-! Claim C5: a failed load is not terminal. -/

/-- Shape of a successful load on a handle with no library held. -/
theorem bind_library_success (os : OS) (p : Plugin) (path : String)
    (h0 : p.lib = 0) (h2 : os.dlopen path ≠ 0) :
    (bind_library os p path).lib = os.dlopen path ∧
    (bind_library os p path).bound = true ∧
    (bind_library os p path).error = p.error ∧
    (bind_library os p path).filepath = path ∧
    (bind_library os p path).functions = p.functions := by
  unfold bind_library
  simp [h0, h2]

/-- Counterexample to C5 as stated: after a failed load of bad.so, a
second load of good.so on the very same handle succeeds, so the
failed-load state is not terminal and the handle does reach a successfully
loaded state. -/
theorem load_failed_not_terminal_counterexample :
    is_lib_bound (bind_library osDemo Plugin.init "bad.so") = false ∧
    (bind_library osDemo Plugin.init "bad.so").error = some "load error" ∧
    is_lib_bound
      (bind_library osDemo (bind_library osDemo Plugin.init "bad.so") "good.so") = true := by
  refine ⟨rfl, rfl, rfl⟩

/-- C5 amended: a failed load leaves the handle with no OS library held,
exactly as an unloaded handle apart from the recorded path and diagnostic,
so the guard of bind_library does not reject a later load, and that later
load succeeds whenever the OS loader can map the new path. -/
theorem failed_load_allows_reload (os : OS) (p : Plugin) (path1 path2 : String)
    (h0 : p.lib = 0) (h1 : os.dlopen path1 = 0) (h2 : os.dlopen path2 ≠ 0) :
    (bind_library os p path1).lib = 0 ∧
    is_lib_bound (bind_library os p path1) = false ∧
    is_lib_bound (bind_library os (bind_library os p path1) path2) = true ∧
    (bind_library os (bind_library os p path1) path2).bound = true := by
  have hq : (bind_library os p path1).lib = 0 := by
    unfold bind_library
    simp [h0, h1]
  have hs := bind_library_success os (bind_library os p path1) path2 hq h2
  refine ⟨hq, ?_, ?_, hs.2.1⟩
  · simp [is_lib_bound, hq]
  · simp [is_lib_bound, hs.1, h2]

/-- Witness for the amended C5 on the concrete loader. -/
theorem failed_load_allows_reload_witness :
    Plugin.init.lib = 0 ∧
    is_lib_bound
      (bind_library osDemo (bind_library osDemo Plugin.init "bad.so") "good.so") = true := by
  refine ⟨rfl, ?_⟩
  exact (failed_load_allows_reload osDemo Plugin.init "bad.so" "good.so"
    rfl (by decide) (by decide)).2.2.1

/-! Claim C6: a successful load does not clear the error slot. -/

/-- Counterexample to C6 as stated: resolving before any load fails and
records a diagnostic; a subsequent successful load leaves is_lib_bound
true but the error slot still holds that earlier diagnostic, so last_error
is not empty immediately after the load. -/
theorem load_success_error_not_cleared_counterexample :
    is_lib_bound
      (bind_library osDemo ((bind_function osDemo Plugin.init "f").1) "good.so") = true ∧
    (bind_library osDemo ((bind_function osDemo Plugin.init "f").1) "good.so").error =
      some "lib has not been bound! cannot continue with binding function!" := by
  refine ⟨rfl, rfl⟩

/-- C6 amended: on a handle with no library held, a successful load makes
is_lib_bound true and sets bound, and leaves last_error exactly as it was
before the load; it is therefore empty after the load only when no earlier
operation had failed. -/
theorem load_success_preserves_error (os : OS) (p : Plugin) (path : String)
    (h0 : p.lib = 0) (h2 : os.dlopen path ≠ 0) :
    is_lib_bound (bind_library os p path) = true ∧
    (bind_library os p path).bound = true ∧
    (bind_library os p path).error = p.error := by
  have hs := bind_library_success os p path h0 h2
  refine ⟨?_, hs.2.1, hs.2.2.1⟩
  simp [is_lib_bound, hs.1, h2]

/-- Witness for the amended C6: on a fresh handle the slot was empty
before the load and so is empty after it. -/
theorem load_success_preserves_error_witness :
    Plugin.init.lib = 0 ∧
    (bind_library osDemo Plugin.init "good.so").error = none := by
  refine ⟨rfl, ?_⟩
  have h := (load_success_preserves_error osDemo Plugin.init "good.so"
    rfl (by decide)).2.2
  rw [h]
  rfl

end Hirzel
